import Mathlib

/-!
Shallow embedding of the Shopify/Airtable synchronization service
(`src/app.py`, with the near-duplicate earlier iteration `src/webhook_app.py`
embedded where a claim cites it).  Pure helpers are translated to Lean
functions; the webhook handler is translated to a state-passing function over
a scripted remote environment that records, in order, every outbound call the
Python code would issue.  String scanning is done structurally over the
character list so that closed runs evaluate inside the kernel.
-/

/-- A Python number: `int` or `float` (floats modelled as exact rationals). -/
inductive PyNum where
  | int (n : Int)
  | float (q : ℚ)
deriving DecidableEq, Repr

/-- A JSON-ish value as seen by `data.get(...)` for the numeric-ish fields:
`None` (absent key or JSON null), a string, or a number. -/
inductive JVal where
  | null
  | str (s : String)
  | num (n : PyNum)
deriving DecidableEq, Repr

/-- Numeric value of a list of decimal digit characters. -/
def digitsToNat (l : List Char) : Nat :=
  l.foldl (fun a c => a * 10 + (c.toNat - 48)) 0

/-- The `s.strip()`: drop whitespace at both ends (character-list version). -/
def stripL (l : List Char) : List Char :=
  ((l.dropWhile Char.isWhitespace).reverse.dropWhile Char.isWhitespace).reverse

/-- Split a character list at every occurrence of a separator character
(structural version of `str.split`). -/
def splitOnChar (sep : Char) : List Char → List (List Char)
  | [] => [[]]
  | c :: rest =>
    let r := splitOnChar sep rest
    if c = sep then [] :: r
    else
      match r with
      | h :: t => (c :: h) :: t
      | [] => [[c]]

/-- Split at every `'.'`. -/
def splitOnDot : List Char → List (List Char) := splitOnChar '.'

/-- The `int(s)` on a stripped string: optional sign followed by at least one
digit (the decimal fragment of Python's `int`; other accepted forms such as
underscores do not occur in this service's inputs). -/
def pyParseInt (l : List Char) : Option Int :=
  let core : List Char → Option Int := fun d =>
    if !d.isEmpty && d.all (·.isDigit) then some ((digitsToNat d : Nat) : Int) else none
  match l with
  | '+' :: rest => core rest
  | '-' :: rest => (core rest).map (fun n => -n)
  | _ => core l

/-- The `float(s)` on a stripped string: optional sign and a decimal body with at
most one dot and at least one digit (the decimal fragment of Python's
`float`; exponent forms do not occur in this service's inputs). -/
def pyParseFloat (l : List Char) : Option ℚ :=
  let signBody : ℚ × List Char :=
    match l with
    | '+' :: rest => ((1 : ℚ), rest)
    | '-' :: rest => ((-1 : ℚ), rest)
    | _ => ((1 : ℚ), l)
  let sgn := signBody.1
  match splitOnDot signBody.2 with
  | [ip, fp] =>
    if (!ip.isEmpty || !fp.isEmpty) && ip.all (·.isDigit) && fp.all (·.isDigit) then
      some (sgn * ((digitsToNat ip : ℚ) + (digitsToNat fp : ℚ) / ((10 : ℚ) ^ fp.length)))
    else none
  | [ip] =>
    if !ip.isEmpty && ip.all (·.isDigit) then some (sgn * (digitsToNat ip : ℚ)) else none
  | _ => none

/-- The `_to_number` from `src/app.py` lines 35-47: normalize Airtable numeric
fields (`None`, `''`, `'  '`, `'12'`, `'12.0'`, numbers kept as-is); any
parse failure yields `None`. -/
def _to_number : JVal → Option PyNum
  | .null => none
  | .num n => some n
  | .str x =>
    let s := stripL x.toList
    if s.isEmpty then none
    else if s.contains '.' then (pyParseFloat s).map PyNum.float
    else (pyParseInt s).map PyNum.int

/-- The `int(q)` for a Python number: truncation toward zero for floats. -/
def pyTrunc (q : ℚ) : Int := if 0 ≤ q then ⌊q⌋ else ⌈q⌉

/-- The `int(x)` as applied to normalized quantities. -/
def pyIntOfNum : PyNum → Int
  | .int n => n
  | .float q => pyTrunc q

/-! ### Markets and the Price-List Directory -/

/-- The three Airtable market keys. -/
inductive MarketKey where
  | uae
  | asia
  | america
deriving DecidableEq, Repr

/-- The `MARKET_NAMES` from `src/app.py` lines 15-19: Airtable market key to
Shopify market display name. -/
def MARKET_NAMES : MarketKey → String
  | .uae => "United Arab Emirates"
  | .asia => "Asia Market"
  | .america => "America & Australia Market"

/-- Iteration order of `prices.items()` in the webhook (Python dicts keep
insertion order: UAE, Asia, America). -/
def marketOrder : List MarketKey := [.uae, .asia, .america]

/-- An entry of the Price-List Directory: `{id, currency}`. -/
structure PriceListRef where
  id : String
  currency : String
deriving DecidableEq, Repr

/-- A price list as returned inside a catalog node: `{id, name, currency}`. -/
structure PLInfo where
  id : String
  name : String
  currency : String
deriving DecidableEq, Repr

/-- The directory `price_lists`: a Python dict from display name to
`PriceListRef`, modelled as an association list with unique keys. -/
abbrev PLDir : Type := List (String × PriceListRef)

/-- Python dict lookup `d[k]` / `k in d`. -/
def dlookup : PLDir → String → Option PriceListRef
  | [], _ => none
  | (k, v) :: rest, key => if k = key then some v else dlookup rest key

/-- Python dict assignment `d[k] = v` (replaces any existing binding). -/
def dinsert (k : String) (v : PriceListRef) (d : PLDir) : PLDir :=
  (List.eraseP (fun p => p.1 == k) d) ++ [(k, v)]

/-- The `CATALOG_TO_MARKET.get(catalog_title, catalog_title)` from `src/app.py`
lines 94-98. -/
def CATALOG_TO_MARKET (t : String) : String :=
  if t = "United Arab Emirates" then "United Arab Emirates"
  else if t = "Asia Market with 55 rate" then "Asia Market"
  else if t = "America catlog" then "International Market"
  else t

/-- A node of the `catalogs(type: MARKET)` query response in `src/app.py`:
`{title, status, priceList}`. -/
structure CatalogNode where
  title : String
  status : String
  priceList : Option PLInfo
deriving DecidableEq, Repr

/-- The shape of the catalogs query response: either the expected fields are
missing (`data.catalogs` absent) or a node list is present. -/
inductive CatalogsResp where
  | malformed
  | nodes (ns : List CatalogNode)
deriving DecidableEq, Repr

/-- The directory-building loop of `get_market_price_lists` in `src/app.py`
lines 100-123: keep only `ACTIVE` catalogs, skip catalogs without an attached
price list, key by the mapped market name. -/
def buildPriceLists (ns : List CatalogNode) : PLDir :=
  ns.foldl
    (fun acc c =>
      if c.status = "ACTIVE" then
        match c.priceList with
        | some pl => dinsert (CATALOG_TO_MARKET c.title) ⟨pl.id, pl.currency⟩ acc
        | none => acc
      else acc)
    []

/-- A catalog node of the `markets` query in `src/webhook_app.py` lines
48-67.  The remote catalog object carries a status, but that query does not
request it and the code never reads it; it is kept in the model to express
that the build is insensitive to it. -/
structure WCatalogNode where
  id : String
  status : String
  priceList : Option PLInfo
deriving DecidableEq, Repr

/-- A market node of the `markets` query in `src/webhook_app.py`. -/
structure MarketNode where
  name : String
  catalogs : List WCatalogNode
deriving DecidableEq, Repr

/-- Response shape of the `markets` query in `src/webhook_app.py`. -/
inductive MarketsResp where
  | malformed
  | nodes (ms : List MarketNode)
deriving DecidableEq, Repr

/-- The directory-building loop of `get_market_price_lists` in
`src/webhook_app.py` lines 74-86: every catalog with an attached price list
contributes, keyed by its market's name; no status filter of any kind. -/
def webhookBuildPriceLists (ms : List MarketNode) : PLDir :=
  ms.foldl
    (fun acc m =>
      m.catalogs.foldl
        (fun acc2 c =>
          match c.priceList with
          | some pl => dinsert m.name ⟨pl.id, pl.currency⟩ acc2
          | none => acc2)
        acc)
    []

/-- The `get_market_price_lists` of `src/webhook_app.py` lines 41-89, as a
function of the (already transport-successful) query response and the cache:
returns the updated cache and the mapping.  A malformed response returns `{}`
without touching the cache and without raising. -/
def webhookGetMarketPriceLists (resp : MarketsResp) (cache : Option PLDir) :
    Option PLDir × PLDir :=
  match cache with
  | some m => (some m, m)
  | none =>
    match resp with
    | .malformed => (none, [])
    | .nodes ms =>
      let pls := webhookBuildPriceLists ms
      (some pls, pls)

/-! ### The remote environment and the call trace -/

/-- Result of one outbound call: transport-level success carrying the parsed
payload, or a transport failure / non-2xx status (which
`resp.raise_for_status()` turns into a raised exception). -/
inductive RResult (α : Type) where
  | ok (a : α)
  | err
deriving DecidableEq, Repr

/-- The first node of the `productVariants` search response. -/
structure VariantNode where
  variantGid : String
  productGid : String
deriving DecidableEq, Repr

/-- A location object from `GET locations.json` (ids kept as integers; the
code's `str()`/`int()` round-trip on them is the identity). -/
structure Location where
  id : Int
  primary : Bool
deriving DecidableEq, Repr

/-- Scripted responses of the remote platform for one webhook run.  Each
call site of the Python code reads exactly one field; the two `stored*`
fields model the price values Shopify currently stores for the variant —
no code path reads them. -/
structure Remote where
  variantSearch : RResult (Option VariantNode)
  variantFetch : RResult Int
  variantDetailsPut : RResult Unit
  productTitlePut : RResult Unit
  defaultPricePut : RResult Unit
  metafieldSet : RResult (List String)
  locationsGet : RResult (List Location)
  inventorySet : RResult Unit
  catalogsQuery : RResult CatalogsResp
  upsertUae : RResult (List String)
  upsertAsia : RResult (List String)
  upsertAmerica : RResult (List String)
  storedDefaultPrice : PyNum
  storedUaeListPrice : PyNum
deriving Repr

/-- Scripted response of the `priceListFixedPricesAdd` mutation for one
market's price list. -/
def Remote.priceUpsert (r : Remote) : MarketKey → RResult (List String)
  | .uae => r.upsertUae
  | .asia => r.upsertAsia
  | .america => r.upsertAmerica

/-- One outbound call, with the payload the Python code sends.  For the
price-list upsert the market key is recorded alongside the price-list id the
mutation is addressed to. -/
inductive Call where
  | gqlVariantSearch (sku : String)
  | restVariantGet (variantNum : String)
  | restVariantDetailsPut (variantNum : String) (title barcode : Option String)
  | restProductTitlePut (productNum : String) (title : String)
  | restDefaultPricePut (variantNum : String) (price : PyNum) (compareAt : Option PyNum)
  | gqlMetafieldSet (owner ns key mtype value : String)
  | restLocationsGet
  | restInventorySet (inventoryItemId : Int) (locationId : Int) (available : Int)
  | gqlCatalogs
  | gqlPriceUpsert (market : MarketKey) (priceListId : String) (variantGid : String)
      (amount : PyNum) (currency : String) (compareAt : Option PyNum)
deriving DecidableEq, Repr

/-- Which stage of the handler issues a call (used to state the fixed
sub-operation order). -/
def stageOf : Call → Nat
  | .gqlVariantSearch _ => 0
  | .restVariantGet _ => 0
  | .restVariantDetailsPut _ _ _ => 1
  | .restProductTitlePut _ _ => 1
  | .restDefaultPricePut _ _ _ => 2
  | .gqlMetafieldSet _ _ _ _ _ => 3
  | .restLocationsGet => 4
  | .restInventorySet _ _ _ => 4
  | .gqlCatalogs => 5
  | .gqlPriceUpsert _ _ _ _ _ _ => 5

/-- A call issues a price write when it is the default-price `PUT` or a
price-list upsert mutation. -/
def isPriceWrite : Call → Bool
  | .restDefaultPricePut _ _ _ => true
  | .gqlPriceUpsert _ _ _ _ _ _ => true
  | _ => false

/-- Environment configuration read at startup. -/
structure Config where
  webhookSecret : String
  preferredLocationId : Option Int
deriving DecidableEq, Repr

/-- The process-wide caches (`CACHED_PRICE_LISTS`, `CACHED_PRIMARY_LOCATION_ID`). -/
structure St where
  cachePL : Option PLDir
  cacheLoc : Option Int
deriving DecidableEq, Repr

/-- One inbound webhook request: the `X-Secret-Token` header and the
recognized JSON body fields. -/
structure Req where
  secret : Option String
  sku : Option String
  uaePrice : JVal
  asiaPrice : JVal
  americaPrice : JVal
  uaeCompare : JVal
  qty : JVal
  title : Option String
  barcode : Option String
  size : Option String
deriving DecidableEq, Repr

/-- The per-market raw price field of the body. -/
def Req.priceOf (req : Req) : MarketKey → JVal
  | .uae => req.uaePrice
  | .asia => req.asiaPrice
  | .america => req.americaPrice

/-- The HTTP response of the webhook endpoint.  `success` carries the fields
of the aggregate body that the claims speak about: the identifiers, whether
an inventory write response is included, and the per-market raw upsert
results (each abstracted to its `userErrors` list). -/
inductive Resp where
  | unauthorized
  | skuMissing
  | notFound (sku : String)
  | internalError
  | success (variantGid productGid : String) (inventoryUpdate : Option Int)
      (priceUpdates : List (MarketKey × List String))
deriving DecidableEq, Repr

/-- HTTP status code of a response. -/
def statusCode : Resp → Nat
  | .unauthorized => 401
  | .skuMissing => 400
  | .notFound _ => 404
  | .internalError => 500
  | .success _ _ _ _ => 200

/-- Python truthiness of an optional string (`if title:`). -/
def truthy : Option String → Bool
  | none => false
  | some s => s ≠ ""

/-- The `gid.split("/")[-1]`. -/
def gidLast (s : String) : String :=
  String.mk ((splitOnChar '/' s.toList).getLastD [])

/-! ### The webhook handler, phase by phase

The handler body of `airtable_webhook` (`src/app.py` lines 325-418) is one
`try` block; a transport failure (`raise_for_status`) or other raise at any
point aborts the remaining work and produces the `500` branch.  Each phase
below returns the calls it issued (in order) and either `.ok` with its value
or `.error ()` for a raised exception. -/

/-- The identifiers resolved for one request. -/
structure ResolvedVariant where
  variantGid : String
  productGid : String
  variantNum : String
  inventoryItemId : Int
deriving DecidableEq, Repr

/-- The `get_variant_product_and_inventory_by_sku` (`src/app.py` lines 129-158):
a GraphQL variant search, then — only on a match — a REST fetch of the
variant for its `inventory_item_id`.  Zero matches return the all-`None`
tuple without the second call. -/
def resolvePhase (r : Remote) (sku : String) :
    List Call × Except Unit (Option ResolvedVariant) :=
  match r.variantSearch with
  | .err => ([.gqlVariantSearch sku], .error ())
  | .ok none => ([.gqlVariantSearch sku], .ok none)
  | .ok (some node) =>
    let vnum := gidLast node.variantGid
    match r.variantFetch with
    | .err => ([.gqlVariantSearch sku, .restVariantGet vnum], .error ())
    | .ok inv =>
      ([.gqlVariantSearch sku, .restVariantGet vnum],
       .ok (some ⟨node.variantGid, node.productGid, vnum, inv⟩))

/-- The `update_variant_details` + `update_product_title` as driven by the
handler (`src/app.py` lines 367-370): one variant `PUT` when a truthy title
or barcode is present, then one product `PUT` when the title is truthy. -/
def fieldsPhase (r : Remote) (variantGid productGid : String)
    (title barcode : Option String) : List Call × Except Unit Unit :=
  if truthy title || truthy barcode then
    let c1 := Call.restVariantDetailsPut (gidLast variantGid)
      (if truthy title then title else none)
      (if truthy barcode then barcode else none)
    match r.variantDetailsPut with
    | .err => ([c1], .error ())
    | .ok _ =>
      if truthy title then
        let c2 := Call.restProductTitlePut (gidLast productGid) (title.getD "")
        match r.productTitlePut with
        | .err => ([c1, c2], .error ())
        | .ok _ => ([c1, c2], .ok ())
      else ([c1], .ok ())
  else ([], .ok ())

/-- The `update_variant_default_price` as driven by the handler (`src/app.py`
lines 372-373 and 160-170): when the normalized UAE price is present, one
unconditional `PUT` of price and optional compare-at; no read of the stored
price happens anywhere. -/
def defaultPhase (r : Remote) (variantNum : String)
    (uaePrice uaeCompare : Option PyNum) : List Call × Except Unit Unit :=
  match uaePrice with
  | none => ([], .ok ())
  | some p =>
    let c := Call.restDefaultPricePut variantNum p uaeCompare
    match r.defaultPricePut with
    | .err => ([c], .error ())
    | .ok _ => ([c], .ok ())

/-- The `set_metafield` as driven by the handler (`src/app.py` lines 375-382 and
198-224): issued when `Size` is present with non-blank text; embedded
`userErrors` are only printed, but a transport failure raises. -/
def metafieldPhase (r : Remote) (variantGid : String) (size : Option String) :
    List Call × Except Unit Unit :=
  match size with
  | none => ([], .ok ())
  | some s =>
    if String.mk (stripL s.toList) = "" then ([], .ok ())
    else
      let c := Call.gqlMetafieldSet variantGid "custom" "size" "single_line_text_field" s
      match r.metafieldSet with
      | .err => ([c], .error ())
      | .ok _errs => ([c], .ok ())

/-- The `get_primary_location_id` (`src/app.py` lines 227-245): configured value
first, then the process cache, then one `GET locations.json` choosing the
primary (or first) location and caching it; an empty location list raises
`RuntimeError`. -/
def locationPhase (cfg : Config) (st : St) (r : Remote) :
    List Call × St × Except Unit Int :=
  match cfg.preferredLocationId with
  | some l => ([], st, .ok l)
  | none =>
    match st.cacheLoc with
    | some l => ([], st, .ok l)
    | none =>
      match r.locationsGet with
      | .err => ([.restLocationsGet], st, .error ())
      | .ok [] => ([.restLocationsGet], st, .error ())
      | .ok (l :: ls) =>
        let chosen := ((l :: ls).find? (·.primary)).getD l
        ([.restLocationsGet], { st with cacheLoc := some chosen.id }, .ok chosen.id)

/-- The `set_inventory_absolute` as driven by the handler (`src/app.py` lines
384-387 and 247-258): when a normalized quantity is present, resolve the
location and `POST` `available = int(quantity)`. -/
def inventoryPhase (cfg : Config) (st : St) (r : Remote) (inventoryItemId : Int)
    (qty : Option PyNum) : List Call × St × Except Unit (Option Int) :=
  match qty with
  | none => ([], st, .ok none)
  | some q =>
    let locOut := locationPhase cfg st r
    match locOut.2.2 with
    | .error _ => (locOut.1, locOut.2.1, .error ())
    | .ok loc =>
      let c := Call.restInventorySet inventoryItemId loc (pyIntOfNum q)
      match r.inventorySet with
      | .err => (locOut.1 ++ [c], locOut.2.1, .error ())
      | .ok _ => (locOut.1 ++ [c], locOut.2.1, .ok (some (pyIntOfNum q)))

/-- The `get_market_price_lists` (`src/app.py` lines 63-126): return the cache
when populated; otherwise issue the catalogs query.  A missing
`data.catalogs` returns `{}` without caching; otherwise the built directory
is cached and returned.  A transport failure raises. -/
def getMarketPriceLists (r : Remote) (cache : Option PLDir) :
    List Call × Option PLDir × Except Unit PLDir :=
  match cache with
  | some m => ([], some m, .ok m)
  | none =>
    match r.catalogsQuery with
    | .err => ([.gqlCatalogs], none, .error ())
    | .ok .malformed => ([.gqlCatalogs], none, .ok [])
    | .ok (.nodes ns) =>
      let pls := buildPriceLists ns
      ([.gqlCatalogs], some pls, .ok pls)

/-- The per-market loop of the handler (`src/app.py` lines 392-404) over
`update_price_list` (lines 261-318): for each market with a present price
whose display name has a directory entry, one unconditional
`priceListFixedPricesAdd` upsert carrying the target price, the list's
currency, and — for the UAE key only — the single compare-at input.
Embedded `userErrors` are recorded in `price_updates`; a transport failure
raises. -/
def priceLoop (r : Remote) (dir : PLDir) (variantGid : String)
    (prices : MarketKey → Option PyNum) (uaeCompare : Option PyNum) :
    List MarketKey → List Call × Except Unit (List (MarketKey × List String))
  | [] => ([], .ok [])
  | k :: ks =>
    match prices k with
    | none => priceLoop r dir variantGid prices uaeCompare ks
    | some amt =>
      match dlookup dir (MARKET_NAMES k) with
      | none => priceLoop r dir variantGid prices uaeCompare ks
      | some pl =>
        let cmp := if k = MarketKey.uae then uaeCompare else none
        let c := Call.gqlPriceUpsert k pl.id variantGid amt pl.currency cmp
        match r.priceUpsert k with
        | .err => ([c], .error ())
        | .ok errs =>
          match priceLoop r dir variantGid prices uaeCompare ks with
          | (t, .error e) => (c :: t, .error e)
          | (t, .ok rest) => (c :: t, .ok ((k, errs) :: rest))

/-- The per-market price-sync stage: fetch the directory, then run the loop
in dict order UAE, Asia, America. -/
def priceSyncPhase (r : Remote) (st : St) (variantGid : String)
    (prices : MarketKey → Option PyNum) (uaeCompare : Option PyNum) :
    List Call × St × Except Unit (List (MarketKey × List String)) :=
  let dirOut := getMarketPriceLists r st.cachePL
  let st' := { st with cachePL := dirOut.2.1 }
  match dirOut.2.2 with
  | .error _ => (dirOut.1, st', .error ())
  | .ok dir =>
    let loopOut := priceLoop r dir variantGid prices uaeCompare marketOrder
    (dirOut.1 ++ loopOut.1, st', loopOut.2)

/-- The `Updating` stage of the handler, in source order: variant/product
fields, default price, metafield, inventory, per-market price sync. -/
def runUpdates (cfg : Config) (st : St) (r : Remote) (v : ResolvedVariant)
    (req : Req) : List Call × St × Except Unit (Option Int × List (MarketKey × List String)) :=
  let pricesN : MarketKey → Option PyNum := fun k => _to_number (req.priceOf k)
  let uaeCompareN := _to_number req.uaeCompare
  let qtyN := _to_number req.qty
  let f1 := fieldsPhase r v.variantGid v.productGid req.title req.barcode
  match f1.2 with
  | .error _ => (f1.1, st, .error ())
  | .ok _ =>
    let f2 := defaultPhase r v.variantNum (pricesN .uae) uaeCompareN
    match f2.2 with
    | .error _ => (f1.1 ++ f2.1, st, .error ())
    | .ok _ =>
      let f3 := metafieldPhase r v.variantGid req.size
      match f3.2 with
      | .error _ => (f1.1 ++ (f2.1 ++ f3.1), st, .error ())
      | .ok _ =>
        let f4 := inventoryPhase cfg st r v.inventoryItemId qtyN
        match f4.2.2 with
        | .error _ => (f1.1 ++ (f2.1 ++ (f3.1 ++ f4.1)), f4.2.1, .error ())
        | .ok invUpd =>
          let f5 := priceSyncPhase r f4.2.1 v.variantGid pricesN uaeCompareN
          match f5.2.2 with
          | .error _ => (f1.1 ++ (f2.1 ++ (f3.1 ++ (f4.1 ++ f5.1))), f5.2.1, .error ())
          | .ok pu => (f1.1 ++ (f2.1 ++ (f3.1 ++ (f4.1 ++ f5.1))), f5.2.1, .ok (invUpd, pu))

/-- Outcome of one webhook request: HTTP response, outbound calls in order,
and the process caches afterwards. -/
structure RunOut where
  resp : Resp
  trace : List Call
  stOut : St
deriving DecidableEq, Repr

/-- The `airtable_webhook` (`src/app.py` lines 325-418): secret check, body
normalization, SKU gate, resolution gate, the `Updating` stage, and the
aggregate `200` body; any raise inside the `try` yields the `500` branch. -/
def runWebhook (cfg : Config) (st : St) (r : Remote) (req : Req) : RunOut :=
  if req.secret ≠ some cfg.webhookSecret then ⟨.unauthorized, [], st⟩
  else
    match req.sku with
    | none => ⟨.skuMissing, [], st⟩
    | some sku =>
      if sku = "" then ⟨.skuMissing, [], st⟩
      else
        let r0 := resolvePhase r sku
        match r0.2 with
        | .error _ => ⟨.internalError, r0.1, st⟩
        | .ok none => ⟨.notFound sku, r0.1, st⟩
        | .ok (some v) =>
          if v.variantGid = "" then ⟨.notFound sku, r0.1, st⟩
          else
            let u := runUpdates cfg st r v req
            match u.2.2 with
            | .error _ => ⟨.internalError, r0.1 ++ u.1, u.2.1⟩
            | .ok (invUpd, pu) =>
              ⟨.success v.variantGid v.productGid invUpd pu, r0.1 ++ u.1, u.2.1⟩

/-- Overwrite the (code-invisible) status of a catalog node of the
`src/webhook_app.py` markets query. -/
def setCatalogStatus (s : String) (c : WCatalogNode) : WCatalogNode :=
  { c with status := s }

/-- Overwrite the statuses of every catalog of a market node. -/
def setMarketStatuses (s : String) (m : MarketNode) : MarketNode :=
  { m with catalogs := m.catalogs.map (setCatalogStatus s) }

/-! ### Concrete fixtures used by counterexamples and witnesses -/

/-- A resolved variant node as the search returns it. -/
def vNode : VariantNode := ⟨"gid://shopify/ProductVariant/11", "gid://shopify/Product/22"⟩

/-- An active UAE market catalog with an attached price list. -/
def uaeCatalog : CatalogNode :=
  ⟨"United Arab Emirates", "ACTIVE", some ⟨"gid://shopify/PriceList/1", "UAE PL", "AED"⟩⟩

/-- An active Asia market catalog with an attached price list. -/
def asiaCatalog : CatalogNode :=
  ⟨"Asia Market with 55 rate", "ACTIVE", some ⟨"gid://shopify/PriceList/2", "Asia PL", "USD"⟩⟩

/-- A remote in which every call succeeds, the variant resolves, and the UAE
and Asia price lists exist; the stored prices are both `100`. -/
def rOk : Remote :=
  { variantSearch := .ok (some vNode), variantFetch := .ok 77,
    variantDetailsPut := .ok (), productTitlePut := .ok (),
    defaultPricePut := .ok (), metafieldSet := .ok [],
    locationsGet := .ok [⟨5, true⟩], inventorySet := .ok (),
    catalogsQuery := .ok (.nodes [uaeCatalog, asiaCatalog]),
    upsertUae := .ok [], upsertAsia := .ok [], upsertAmerica := .ok [],
    storedDefaultPrice := .int 100, storedUaeListPrice := .int 100 }

/-- A configuration with a preferred inventory location. -/
def cfg0 : Config := ⟨"sek", some 5⟩

/-- Cold caches. -/
def st0 : St := ⟨none, none⟩

/-- An authorized request for SKU `SKU-1` with every optional field absent. -/
def reqBase : Req :=
  ⟨some "sek", some "SKU-1", .null, .null, .null, .null, .null, none, none, none⟩

/-- The `reqBase` targeting only the Asia price, with the compare input present. -/
def reqC9a : Req := { reqBase with asiaPrice := .num (.int 50), uaeCompare := .num (.int 80) }

/-- The `reqBase` targeting the UAE price, with the compare input present. -/
def reqC9b : Req := { reqBase with uaePrice := .num (.int 100), uaeCompare := .num (.int 80) }

/-- The `reqBase` with a UAE target price equal to the stored prices of `rOk`. -/
def reqC1 : Req := { reqBase with uaePrice := .num (.int 100) }

/-- The `reqBase` exercising the metafield, inventory and Asia price writes. -/
def reqC2 : Req :=
  { reqBase with size := some "XL", qty := .num (.int 10), asiaPrice := .num (.int 50) }

/-- The `rOk` whose metafield mutation fails at the transport level. -/
def rMetaErr : Remote := { rOk with metafieldSet := .err }

/-- The `reqBase` with a negative integer quantity. -/
def reqC10 : Req := { reqBase with qty := .num (.int (-5)) }

/-- The `rOk` whose metafield mutation succeeds at transport level but returns an
embedded user error. -/
def rEmb : Remote := { rOk with metafieldSet := .ok ["boom"] }

/-! ### The earlier iteration: `src/webhook_app.py`'s handler

The claims cite both files.  `src/webhook_app.py`'s `airtable_webhook`
(lines 285-383) has the same skeleton as `src/app.py`'s but applies no
numeric normalization at all: the price, compare and quantity fields are
used raw, and the quantity reaches Python's `int()` inside
`set_inventory_absolute` (line 225), which raises on non-integer input.
It is embedded separately, with raw `JVal` payloads in its calls. -/

/-- Python `int(x)` on a raw JSON value: `None` raises `TypeError`, numbers
truncate toward zero, and a string parses as a (whitespace-stripped) signed
integer or raises `ValueError`; `none` models the raise. -/
def pyIntOf : JVal → Option Int
  | .null => none
  | .num n => some (pyIntOfNum n)
  | .str s => pyParseInt (stripL s.toList)

/-- One outbound call of the `src/webhook_app.py` handler.  Prices travel as
the raw field values (the code merely wraps them in `str(...)`). -/
inductive WCall where
  | gqlVariantSearch (sku : String)
  | restVariantGet (variantNum : String)
  | restVariantDetailsPut (variantNum : String) (title barcode : Option String)
  | restProductTitlePut (productNum : String) (title : String)
  | restDefaultPricePut (variantNum : String) (price : JVal) (compareAt : Option JVal)
  | gqlMetafieldSet (owner ns key mtype value : String)
  | restLocationsGet
  | restInventorySet (inventoryItemId : Int) (locationId : Int) (available : Int)
  | gqlMarkets
  | gqlPriceUpsert (market : MarketKey) (priceListId : String) (variantGid : String)
      (amount : JVal) (currency : String) (compareAt : Option JVal)
deriving DecidableEq, Repr

/-- Scripted remote responses for one `src/webhook_app.py` run. -/
structure WRemote where
  variantSearch : RResult (Option VariantNode)
  variantFetch : RResult Int
  variantDetailsPut : RResult Unit
  productTitlePut : RResult Unit
  defaultPricePut : RResult Unit
  metafieldSet : RResult (List String)
  locationsGet : RResult (List Location)
  inventorySet : RResult Unit
  marketsQuery : RResult MarketsResp
  upsertUae : RResult (List String)
  upsertAsia : RResult (List String)
  upsertAmerica : RResult (List String)
deriving Repr

/-- Scripted response of the fixed-price mutation per market. -/
def WRemote.priceUpsert (r : WRemote) : MarketKey → RResult (List String)
  | .uae => r.upsertUae
  | .asia => r.upsertAsia
  | .america => r.upsertAmerica

/-- The resolver of `src/webhook_app.py` lines 92-125 (same two calls as the
`src/app.py` one). -/
def wResolvePhase (r : WRemote) (sku : String) :
    List WCall × Except Unit (Option ResolvedVariant) :=
  match r.variantSearch with
  | .err => ([.gqlVariantSearch sku], .error ())
  | .ok none => ([.gqlVariantSearch sku], .ok none)
  | .ok (some node) =>
    let vnum := gidLast node.variantGid
    match r.variantFetch with
    | .err => ([.gqlVariantSearch sku, .restVariantGet vnum], .error ())
    | .ok inv =>
      ([.gqlVariantSearch sku, .restVariantGet vnum],
       .ok (some ⟨node.variantGid, node.productGid, vnum, inv⟩))

/-- The field/title step of `src/webhook_app.py` lines 328-331 over
`update_variant_details` and `update_product_title` (lines 140-165). -/
def wFieldsPhase (r : WRemote) (variantGid productGid : String)
    (title barcode : Option String) : List WCall × Except Unit Unit :=
  if truthy title || truthy barcode then
    let c1 := WCall.restVariantDetailsPut (gidLast variantGid)
      (if truthy title then title else none)
      (if truthy barcode then barcode else none)
    match r.variantDetailsPut with
    | .err => ([c1], .error ())
    | .ok _ =>
      if truthy title then
        let c2 := WCall.restProductTitlePut (gidLast productGid) (title.getD "")
        match r.productTitlePut with
        | .err => ([c1, c2], .error ())
        | .ok _ => ([c1, c2], .ok ())
      else ([c1], .ok ())
  else ([], .ok ())

/-- The default-price step of `src/webhook_app.py` lines 334-335 over
`update_variant_default_price` (lines 127-138): the raw UAE price is written
whenever it is not `None` — `""` and non-numeric strings included — with the
raw compare value attached when not `None`. -/
def wDefaultPhase (r : WRemote) (variantNum : String) (uaePrice uaeCompare : JVal) :
    List WCall × Except Unit Unit :=
  if uaePrice = .null then ([], .ok ())
  else
    let c := WCall.restDefaultPricePut variantNum uaePrice
      (if uaeCompare = .null then none else some uaeCompare)
    match r.defaultPricePut with
    | .err => ([c], .error ())
    | .ok _ => ([c], .ok ())

/-- The metafield step of `src/webhook_app.py` lines 338-345 (note: no
`.strip()` on the emptiness check, unlike `src/app.py`). -/
def wMetafieldPhase (r : WRemote) (variantGid : String) (size : Option String) :
    List WCall × Except Unit Unit :=
  match size with
  | none => ([], .ok ())
  | some s =>
    if s = "" then ([], .ok ())
    else
      let c := WCall.gqlMetafieldSet variantGid "custom" "size" "single_line_text_field" s
      match r.metafieldSet with
      | .err => ([c], .error ())
      | .ok _errs => ([c], .ok ())

/-- `get_primary_location_id` of `src/webhook_app.py` lines 198-217 (same
logic as the `src/app.py` one). -/
def wLocationPhase (cfg : Config) (st : St) (r : WRemote) :
    List WCall × St × Except Unit Int :=
  match cfg.preferredLocationId with
  | some l => ([], st, .ok l)
  | none =>
    match st.cacheLoc with
    | some l => ([], st, .ok l)
    | none =>
      match r.locationsGet with
      | .err => ([.restLocationsGet], st, .error ())
      | .ok [] => ([.restLocationsGet], st, .error ())
      | .ok (l :: ls) =>
        let chosen := ((l :: ls).find? (·.primary)).getD l
        ([.restLocationsGet], { st with cacheLoc := some chosen.id }, .ok chosen.id)

/-- The inventory step of `src/webhook_app.py` lines 348-351 over
`set_inventory_absolute` (lines 219-231): the gate is only `is not None`, the
location is resolved first, and then the payload's `int(quantity)` is
evaluated on the raw value — raising (and so aborting the run) before the
POST when the value is not integral. -/
def wInventoryPhase (cfg : Config) (st : St) (r : WRemote) (inventoryItemId : Int)
    (qty : JVal) : List WCall × St × Except Unit (Option Int) :=
  if qty = .null then ([], st, .ok none)
  else
    let locOut := wLocationPhase cfg st r
    match locOut.2.2 with
    | .error _ => (locOut.1, locOut.2.1, .error ())
    | .ok loc =>
      match pyIntOf qty with
      | none => (locOut.1, locOut.2.1, .error ())
      | some n =>
        let c := WCall.restInventorySet inventoryItemId loc n
        match r.inventorySet with
        | .err => (locOut.1 ++ [c], locOut.2.1, .error ())
        | .ok _ => (locOut.1 ++ [c], locOut.2.1, .ok (some n))

/-- `get_market_price_lists` of `src/webhook_app.py` lines 41-89 with its
transport and trace: cache first, then one markets query; malformed shape
returns `{}` without caching. -/
def wGetMarketPriceLists (r : WRemote) (cache : Option PLDir) :
    List WCall × Option PLDir × Except Unit PLDir :=
  match cache with
  | some m => ([], some m, .ok m)
  | none =>
    match r.marketsQuery with
    | .err => ([.gqlMarkets], none, .error ())
    | .ok .malformed => ([.gqlMarkets], none, .ok [])
    | .ok (.nodes ms) =>
      let pls := webhookBuildPriceLists ms
      ([.gqlMarkets], some pls, .ok pls)

/-- The per-market loop of `src/webhook_app.py` lines 357-369 over
`update_price_list` (lines 234-277), on the raw price values. -/
def wPriceLoop (r : WRemote) (dir : PLDir) (variantGid : String)
    (prices : MarketKey → JVal) (uaeCompare : JVal) :
    List MarketKey → List WCall × Except Unit (List (MarketKey × List String))
  | [] => ([], .ok [])
  | k :: ks =>
    if prices k = .null then wPriceLoop r dir variantGid prices uaeCompare ks
    else
      match dlookup dir (MARKET_NAMES k) with
      | none => wPriceLoop r dir variantGid prices uaeCompare ks
      | some pl =>
        let cmp := if k = MarketKey.uae then
            (if uaeCompare = .null then none else some uaeCompare)
          else none
        let c := WCall.gqlPriceUpsert k pl.id variantGid (prices k) pl.currency cmp
        match r.priceUpsert k with
        | .err => ([c], .error ())
        | .ok errs =>
          match wPriceLoop r dir variantGid prices uaeCompare ks with
          | (t, .error e) => (c :: t, .error e)
          | (t, .ok rest) => (c :: t, .ok ((k, errs) :: rest))

/-- The price-sync stage of the `src/webhook_app.py` handler. -/
def wPriceSyncPhase (r : WRemote) (st : St) (variantGid : String)
    (prices : MarketKey → JVal) (uaeCompare : JVal) :
    List WCall × St × Except Unit (List (MarketKey × List String)) :=
  let dirOut := wGetMarketPriceLists r st.cachePL
  let st' := { st with cachePL := dirOut.2.1 }
  match dirOut.2.2 with
  | .error _ => (dirOut.1, st', .error ())
  | .ok dir =>
    let loopOut := wPriceLoop r dir variantGid prices uaeCompare marketOrder
    (dirOut.1 ++ loopOut.1, st', loopOut.2)

/-- The `Updating` stage of the `src/webhook_app.py` handler, in source
order, on the raw field values. -/
def wRunUpdates (cfg : Config) (st : St) (r : WRemote) (v : ResolvedVariant)
    (req : Req) : List WCall × St × Except Unit (Option Int × List (MarketKey × List String)) :=
  let f1 := wFieldsPhase r v.variantGid v.productGid req.title req.barcode
  match f1.2 with
  | .error _ => (f1.1, st, .error ())
  | .ok _ =>
    let f2 := wDefaultPhase r v.variantNum req.uaePrice req.uaeCompare
    match f2.2 with
    | .error _ => (f1.1 ++ f2.1, st, .error ())
    | .ok _ =>
      let f3 := wMetafieldPhase r v.variantGid req.size
      match f3.2 with
      | .error _ => (f1.1 ++ (f2.1 ++ f3.1), st, .error ())
      | .ok _ =>
        let f4 := wInventoryPhase cfg st r v.inventoryItemId req.qty
        match f4.2.2 with
        | .error _ => (f1.1 ++ (f2.1 ++ (f3.1 ++ f4.1)), f4.2.1, .error ())
        | .ok invUpd =>
          let f5 := wPriceSyncPhase r f4.2.1 v.variantGid (fun k => req.priceOf k)
            req.uaeCompare
          match f5.2.2 with
          | .error _ => (f1.1 ++ (f2.1 ++ (f3.1 ++ (f4.1 ++ f5.1))), f5.2.1, .error ())
          | .ok pu => (f1.1 ++ (f2.1 ++ (f3.1 ++ (f4.1 ++ f5.1))), f5.2.1, .ok (invUpd, pu))

/-- Outcome of one `src/webhook_app.py` request. -/
structure WRunOut where
  resp : Resp
  trace : List WCall
  stOut : St
deriving DecidableEq, Repr

/-- `airtable_webhook` of `src/webhook_app.py` lines 285-383: same skeleton
as the `src/app.py` handler, but on the raw, unnormalized field values. -/
def runWebhookApp (cfg : Config) (st : St) (r : WRemote) (req : Req) : WRunOut :=
  if req.secret ≠ some cfg.webhookSecret then ⟨.unauthorized, [], st⟩
  else
    match req.sku with
    | none => ⟨.skuMissing, [], st⟩
    | some sku =>
      if sku = "" then ⟨.skuMissing, [], st⟩
      else
        let r0 := wResolvePhase r sku
        match r0.2 with
        | .error _ => ⟨.internalError, r0.1, st⟩
        | .ok none => ⟨.notFound sku, r0.1, st⟩
        | .ok (some v) =>
          if v.variantGid = "" then ⟨.notFound sku, r0.1, st⟩
          else
            let u := wRunUpdates cfg st r v req
            match u.2.2 with
            | .error _ => ⟨.internalError, r0.1 ++ u.1, u.2.1⟩
            | .ok (invUpd, pu) =>
              ⟨.success v.variantGid v.productGid invUpd pu, r0.1 ++ u.1, u.2.1⟩

/-- A `src/webhook_app.py` remote in which every call succeeds and the
markets query returns no markets. -/
def wOk : WRemote :=
  { variantSearch := .ok (some vNode), variantFetch := .ok 77,
    variantDetailsPut := .ok (), productTitlePut := .ok (),
    defaultPricePut := .ok (), metafieldSet := .ok [],
    locationsGet := .ok [⟨5, true⟩], inventorySet := .ok (),
    marketsQuery := .ok (.nodes []),
    upsertUae := .ok [], upsertAsia := .ok [], upsertAmerica := .ok [] }

/-- The `reqBase` with the malformed quantity `"abc"`. -/
def reqC3a : Req := { reqBase with qty := .str "abc" }

/-- The `reqBase` with the empty-string UAE price. -/
def reqC3b : Req := { reqBase with uaePrice := .str "" }

/-! ### Claim theorems -/

/-- Resolution result of the `src/webhook_app.py` resolver on a successful
search and follow-up fetch. -/
theorem wResolvePhase_ok (r : WRemote) (sku : String) (node : VariantNode) (inv : Int)
    (hs : r.variantSearch = .ok (some node)) (hf : r.variantFetch = .ok inv) :
    wResolvePhase r sku =
      ([.gqlVariantSearch sku, .restVariantGet (gidLast node.variantGid)],
       .ok (some ⟨node.variantGid, node.productGid, gidLast node.variantGid, inv⟩)) := by
  simp [wResolvePhase, hs, hf]

/-- The `src/webhook_app.py` field/title step does not raise when both PUT
calls succeed. -/
theorem wFieldsPhase_ok (r : WRemote) (vg pg : String) (t b : Option String)
    (hdp : r.variantDetailsPut = .ok ()) (htp : r.productTitlePut = .ok ()) :
    (wFieldsPhase r vg pg t b).2 = .ok () := by
  unfold wFieldsPhase
  repeat' split
  all_goals simp_all

/-- The trace of the `src/webhook_app.py` default-price step with a
non-`None` raw UAE price, whatever the PUT's outcome. -/
theorem wDefaultPhase_trace (r : WRemote) (vnum : String) (up uc : JVal)
    (hup : up ≠ .null) :
    (wDefaultPhase r vnum up uc).1 =
      [WCall.restDefaultPricePut vnum up (if uc = .null then none else some uc)] := by
  unfold wDefaultPhase
  rw [if_neg hup]
  dsimp only
  split <;> rfl

/-- The `src/webhook_app.py` default-price step does not raise when the PUT
succeeds. -/
theorem wDefaultPhase_ok (r : WRemote) (vnum : String) (up uc : JVal)
    (hpp : r.defaultPricePut = .ok ()) : (wDefaultPhase r vnum up uc).2 = .ok () := by
  unfold wDefaultPhase
  repeat' split
  all_goals simp_all

/-- The `src/webhook_app.py` metafield step does not raise on a
transport-successful mutation. -/
theorem wMetafieldPhase_ok (r : WRemote) (vg : String) (size : Option String)
    (errs : List String) (hms : r.metafieldSet = .ok errs) :
    (wMetafieldPhase r vg size).2 = .ok () := by
  unfold wMetafieldPhase
  repeat' split
  all_goals simp_all

/-- The `src/webhook_app.py` inventory step with a configured location and a
present quantity that Python's `int()` rejects: the step raises before the
POST (no inventory call is issued). -/
theorem wInventoryPhase_badqty (cfg : Config) (st : St) (r : WRemote) (inv : Int)
    (qty : JVal) (L : Int) (hL : cfg.preferredLocationId = some L)
    (hqn : qty ≠ .null) (hbad : pyIntOf qty = none) :
    wInventoryPhase cfg st r inv qty = ([], st, .error ()) := by
  unfold wInventoryPhase wLocationPhase
  rw [if_neg hqn]
  simp [hL, hbad]

/-- C3 (counterexample): in the `src/webhook_app.py` handler no
normalization exists: a request whose quantity is the malformed string
`"abc"` fails with `500` — Python's `int()` raises inside the inventory
write — and an empty-string UAE price is treated as present and written
verbatim, contradicting both the claimed table (`""`, `"abc"` mapped to
absent) and "malformed numeric input never fails the request". -/
theorem claim_C3_counterexample :
    reqC3a.qty = .str "abc" ∧
    (runWebhookApp cfg0 st0 wOk reqC3a).resp = .internalError ∧
    statusCode (runWebhookApp cfg0 st0 wOk reqC3a).resp = 500 ∧
    reqC3b.uaePrice = .str "" ∧
    WCall.restDefaultPricePut "11" (.str "") none ∈
      (runWebhookApp cfg0 st0 wOk reqC3b).trace := by decide

/-- C3 (amended): in `src/app.py` normalization maps `null`, `""`, `"  "`,
`"abc"` to absent, keeps `12` and `12.0` as-is, parses `"12"` to `12` and
`"12.50"` to `12.5`, and malformed input never fails the request there; in
`src/webhook_app.py` no normalization is applied: whenever the run reaches
the corresponding write, a present quantity that `int()` rejects aborts the
request with `500`, and any non-`None` UAE price — the empty string
included — is written verbatim. -/
theorem claim_C3_theorem :
    (_to_number .null = none ∧
     _to_number (.str "") = none ∧
     _to_number (.str "  ") = none ∧
     _to_number (.num (.int 12)) = some (.int 12) ∧
     _to_number (.num (.float 12)) = some (.float 12) ∧
     _to_number (.str "12") = some (.int 12) ∧
     _to_number (.str "12.50") = some (.float (25/2)) ∧
     _to_number (.str "abc") = none) ∧
    (∀ (cfg : Config) (st : St) (r : WRemote) (req : Req) (sku : String)
      (node : VariantNode) (inv : Int) (L : Int) (errs : List String),
      req.secret = some cfg.webhookSecret → req.sku = some sku → sku ≠ "" →
      r.variantSearch = .ok (some node) → node.variantGid ≠ "" →
      r.variantFetch = .ok inv →
      r.variantDetailsPut = .ok () → r.productTitlePut = .ok () →
      r.defaultPricePut = .ok () → r.metafieldSet = .ok errs →
      cfg.preferredLocationId = some L →
      req.qty ≠ .null → pyIntOf req.qty = none →
      (runWebhookApp cfg st r req).resp = .internalError ∧
        statusCode (runWebhookApp cfg st r req).resp = 500) ∧
    (∀ (cfg : Config) (st : St) (r : WRemote) (req : Req) (sku : String)
      (node : VariantNode) (inv : Int),
      req.secret = some cfg.webhookSecret → req.sku = some sku → sku ≠ "" →
      r.variantSearch = .ok (some node) → node.variantGid ≠ "" →
      r.variantFetch = .ok inv →
      r.variantDetailsPut = .ok () → r.productTitlePut = .ok () →
      req.uaePrice ≠ .null →
      WCall.restDefaultPricePut (gidLast node.variantGid) req.uaePrice
          (if req.uaeCompare = .null then none else some req.uaeCompare) ∈
        (runWebhookApp cfg st r req).trace) := by
  refine ⟨⟨by decide, by decide, by decide, by decide, rfl, by decide, ?_, by decide⟩, ?_, ?_⟩
  · have h : _to_number (.str "12.50") =
        some (.float ((1 : ℚ) * (((12 : Nat) : ℚ) + ((50 : Nat) : ℚ) / (10 : ℚ) ^ (2 : Nat)))) := rfl
    rw [h]; norm_num
  · intro cfg st r req sku node inv L errs hsec hsku hne hs hgid hf hdp htp hpp hms hL
      hqn hbad
    have e0 := wResolvePhase_ok r sku node inv hs hf
    have e1 := wFieldsPhase_ok r node.variantGid node.productGid req.title req.barcode hdp htp
    have e2 := wDefaultPhase_ok r (gidLast node.variantGid) req.uaePrice req.uaeCompare hpp
    have e3 := wMetafieldPhase_ok r node.variantGid req.size errs hms
    have e4 := wInventoryPhase_badqty cfg st r inv req.qty L hL hqn hbad
    unfold runWebhookApp
    rw [if_neg (by simp [hsec]), hsku]
    dsimp only
    rw [if_neg hne, e0]
    dsimp only
    rw [if_neg hgid]
    unfold wRunUpdates
    try dsimp only
    rw [e1]
    try dsimp only
    rw [e2]
    try dsimp only
    rw [e3]
    try dsimp only
    rw [e4]
    dsimp only
    exact ⟨rfl, rfl⟩
  · intro cfg st r req sku node inv hsec hsku hne hs hgid hf hdp htp hup
    have e0 := wResolvePhase_ok r sku node inv hs hf
    have e1 := wFieldsPhase_ok r node.variantGid node.productGid req.title req.barcode hdp htp
    unfold runWebhookApp
    rw [if_neg (by simp [hsec]), hsku]
    dsimp only
    rw [if_neg hne, e0]
    dsimp only
    rw [if_neg hgid]
    unfold wRunUpdates
    try dsimp only
    rw [e1]
    try dsimp only
    repeat' split
    all_goals
      simp_all [List.mem_append, wDefaultPhase_trace r (gidLast node.variantGid) req.uaePrice]

/-- Witness for C3 at concrete runs: a malformed quantity aborts with `500`,
and an empty-string price is written verbatim. -/
theorem claim_C3_witness :
    ((runWebhookApp cfg0 st0 wOk reqC3a).resp = .internalError ∧
      statusCode (runWebhookApp cfg0 st0 wOk reqC3a).resp = 500) ∧
    (WCall.restDefaultPricePut "11" (.str "") none ∈
      (runWebhookApp cfg0 st0 wOk reqC3b).trace) :=
  ⟨claim_C3_theorem.2.1 cfg0 st0 wOk reqC3a "SKU-1" vNode 77 5 []
      rfl rfl (by decide) rfl (by decide) rfl rfl rfl rfl rfl rfl (by decide) (by decide),
   claim_C3_theorem.2.2 cfg0 st0 wOk reqC3b "SKU-1" vNode 77
      rfl rfl (by decide) rfl (by decide) rfl rfl rfl (by decide)⟩

/-- C8: an authorized request whose body lacks the `SKU` field is answered
`400 {"error": "SKU missing"}` with an empty call trace, i.e. before any
remote call. -/
theorem claim_C8_theorem (cfg : Config) (st : St) (r : Remote) (req : Req)
    (hsec : req.secret = some cfg.webhookSecret) (hsku : req.sku = none) :
    runWebhook cfg st r req = ⟨.skuMissing, [], st⟩ ∧ statusCode .skuMissing = 400 := by
  refine ⟨?_, rfl⟩
  simp [runWebhook, hsec, hsku]

/-- Witness for C8 at a concrete request with the SKU key absent. -/
theorem claim_C8_witness :
    runWebhook cfg0 st0 rOk { reqBase with sku := none } = ⟨.skuMissing, [], st0⟩ ∧
      statusCode .skuMissing = 400 :=
  claim_C8_theorem cfg0 st0 rOk { reqBase with sku := none } rfl rfl

/-- C4: a SKU resolving to zero variants is answered `404` after the single
search call (no write of any kind is attempted); and when the search matches
but the follow-up REST fetch of the inventory identifier fails, the outcome
is the `500` transport-failure branch, not the `404` not-found branch. -/
theorem claim_C4_theorem (cfg : Config) (st : St) (r : Remote) (req : Req) (sku : String)
    (hsec : req.secret = some cfg.webhookSecret) (hsku : req.sku = some sku)
    (hne : sku ≠ "") :
    (r.variantSearch = .ok none →
      runWebhook cfg st r req = ⟨.notFound sku, [.gqlVariantSearch sku], st⟩ ∧
      statusCode (.notFound sku) = 404) ∧
    (∀ node, r.variantSearch = .ok (some node) → r.variantFetch = .err →
      runWebhook cfg st r req =
        ⟨.internalError, [.gqlVariantSearch sku, .restVariantGet (gidLast node.variantGid)], st⟩ ∧
      statusCode .internalError = 500 ∧ (Resp.internalError ≠ .notFound sku)) := by
  constructor
  · intro hs
    refine ⟨?_, rfl⟩
    simp [runWebhook, hsec, hsku, hne, resolvePhase, hs]
  · intro node hs hf
    refine ⟨?_, rfl, by simp⟩
    simp [runWebhook, hsec, hsku, hne, resolvePhase, hs, hf]

/-- Witness for C4: both branches at concrete remotes. -/
theorem claim_C4_witness :
    (runWebhook cfg0 st0 { rOk with variantSearch := .ok none } reqBase =
      ⟨.notFound "SKU-1", [.gqlVariantSearch "SKU-1"], st0⟩) ∧
    (runWebhook cfg0 st0 { rOk with variantFetch := .err } reqBase =
      ⟨.internalError, [.gqlVariantSearch "SKU-1", .restVariantGet "11"], st0⟩) :=
  ⟨((claim_C4_theorem cfg0 st0 { rOk with variantSearch := .ok none } reqBase "SKU-1"
      rfl rfl (by decide)).1 rfl).1,
   (((claim_C4_theorem cfg0 st0 { rOk with variantFetch := .err } reqBase "SKU-1"
      rfl rfl (by decide)).2 vNode rfl rfl).1)⟩

/-- C5: with a populated cache and no forced refresh, the directory getter
returns the cached mapping unchanged with no remote call, so two successive
gets issue at most one (here zero) remote enumeration calls. -/
theorem claim_C5_theorem (r : Remote) (cache : Option PLDir) (m : PLDir)
    (h : cache = some m) :
    getMarketPriceLists r cache = ([], some m, .ok m) ∧
    (getMarketPriceLists r cache).1.length +
      (getMarketPriceLists r (getMarketPriceLists r cache).2.1).1.length ≤ 1 := by
  subst h
  refine ⟨rfl, ?_⟩
  simp [getMarketPriceLists]

/-- Witness for C5 at a concrete populated cache. -/
theorem claim_C5_witness :
    getMarketPriceLists rOk (some [("Asia Market", ⟨"pl2", "USD"⟩)]) =
      ([], some [("Asia Market", ⟨"pl2", "USD"⟩)], .ok [("Asia Market", ⟨"pl2", "USD"⟩)]) ∧
    (getMarketPriceLists rOk (some [("Asia Market", ⟨"pl2", "USD"⟩)])).1.length +
      (getMarketPriceLists rOk
        (getMarketPriceLists rOk (some [("Asia Market", ⟨"pl2", "USD"⟩)])).2.1).1.length ≤ 1 :=
  claim_C5_theorem rOk (some [("Asia Market", ⟨"pl2", "USD"⟩)]) [("Asia Market", ⟨"pl2", "USD"⟩)] rfl

/-- The `src/app.py` directory build ignores exactly the catalogs that are
not `ACTIVE` or have no attached price list (auxiliary, generalized
accumulator). -/
theorem buildPriceLists_go_filter (ns : List CatalogNode) (acc : PLDir) :
    ns.foldl
      (fun acc c =>
        if c.status = "ACTIVE" then
          match c.priceList with
          | some pl => dinsert (CATALOG_TO_MARKET c.title) ⟨pl.id, pl.currency⟩ acc
          | none => acc
        else acc)
      acc =
    (ns.filter fun c => c.status == "ACTIVE" && c.priceList.isSome).foldl
      (fun acc c =>
        if c.status = "ACTIVE" then
          match c.priceList with
          | some pl => dinsert (CATALOG_TO_MARKET c.title) ⟨pl.id, pl.currency⟩ acc
          | none => acc
        else acc)
      acc := by
  induction ns generalizing acc with
  | nil => rfl
  | cons c rest ih =>
    simp only [List.foldl_cons, List.filter_cons]
    by_cases h1 : c.status = "ACTIVE"
    · cases h2 : c.priceList with
      | some pl => simp [h1, h2, ih]
      | none => simp [h1, h2, ih]
    · simp [h1, ih]

/-- C6 (counterexample part): in the `src/webhook_app.py` directory build, a
catalog whose status is not `ACTIVE` still contributes an entry — that build
applies no status filter at all. -/
theorem claim_C6_counterexample :
    (⟨"cat1", "ARCHIVED", some ⟨"plid", "n", "USD"⟩⟩ : WCatalogNode).status ≠ "ACTIVE" ∧
    webhookBuildPriceLists [⟨"M", [⟨"cat1", "ARCHIVED", some ⟨"plid", "n", "USD"⟩⟩]⟩] =
      [("M", ⟨"plid", "USD"⟩)] := by decide

/-- C6 (amended): in the `src/app.py` build only `ACTIVE` catalogs with an
attached price list contribute and a malformed response yields the empty
mapping without raising; in the `src/webhook_app.py` build the malformed
case likewise yields the empty mapping, but the build is entirely
insensitive to catalog status. -/
theorem claim_C6_theorem :
    (∀ ns : List CatalogNode,
      buildPriceLists ns =
        buildPriceLists (ns.filter fun c => c.status == "ACTIVE" && c.priceList.isSome)) ∧
    (∀ r : Remote, r.catalogsQuery = .ok .malformed →
      getMarketPriceLists r none = ([.gqlCatalogs], none, .ok [])) ∧
    (∀ (ms : List MarketNode) (s : String),
      webhookBuildPriceLists (ms.map (setMarketStatuses s)) = webhookBuildPriceLists ms) ∧
    webhookGetMarketPriceLists .malformed none = (none, []) := by
  refine ⟨?_, ?_, ?_, rfl⟩
  · intro ns
    exact buildPriceLists_go_filter ns []
  · intro r h
    simp [getMarketPriceLists, h]
  · intro ms s
    simp [webhookBuildPriceLists, setMarketStatuses, setCatalogStatus, List.foldl_map]

/-- Witness for C6 at a concrete remote whose catalogs query returns a
malformed shape. -/
theorem claim_C6_witness :
    (buildPriceLists [uaeCatalog, ⟨"Draft cat", "DRAFT", some ⟨"p", "n", "USD"⟩⟩] =
      buildPriceLists
        (([uaeCatalog, ⟨"Draft cat", "DRAFT", some ⟨"p", "n", "USD"⟩⟩] : List CatalogNode).filter
          fun c => c.status == "ACTIVE" && c.priceList.isSome)) ∧
    getMarketPriceLists { rOk with catalogsQuery := .ok .malformed } none =
      ([.gqlCatalogs], none, .ok []) :=
  ⟨claim_C6_theorem.1 [uaeCatalog, ⟨"Draft cat", "DRAFT", some ⟨"p", "n", "USD"⟩⟩],
   claim_C6_theorem.2.1 { rOk with catalogsQuery := .ok .malformed } rfl⟩

/-- Every call of the resolution phase belongs to stage 0. -/
theorem resolvePhase_stage (r : Remote) (sku : String) :
    ∀ c ∈ (resolvePhase r sku).1, stageOf c = 0 := by
  unfold resolvePhase
  repeat' split
  all_goals simp [stageOf]

/-- Every call of the field/title phase belongs to stage 1. -/
theorem fieldsPhase_stage (r : Remote) (vg pg : String) (t b : Option String) :
    ∀ c ∈ (fieldsPhase r vg pg t b).1, stageOf c = 1 := by
  unfold fieldsPhase
  repeat' split
  all_goals simp [stageOf]

/-- Every call of the default-price phase belongs to stage 2. -/
theorem defaultPhase_stage (r : Remote) (vnum : String) (p cmp : Option PyNum) :
    ∀ c ∈ (defaultPhase r vnum p cmp).1, stageOf c = 2 := by
  unfold defaultPhase
  repeat' split
  all_goals simp [stageOf]

/-- Every call of the metafield phase belongs to stage 3. -/
theorem metafieldPhase_stage (r : Remote) (vg : String) (size : Option String) :
    ∀ c ∈ (metafieldPhase r vg size).1, stageOf c = 3 := by
  unfold metafieldPhase
  repeat' split
  all_goals simp [stageOf]

/-- Every call of the location resolution belongs to stage 4. -/
theorem locationPhase_stage (cfg : Config) (st : St) (r : Remote) :
    ∀ c ∈ (locationPhase cfg st r).1, stageOf c = 4 := by
  unfold locationPhase
  repeat' split
  all_goals simp [stageOf]

/-- Every call of the inventory phase belongs to stage 4. -/
theorem inventoryPhase_stage (cfg : Config) (st : St) (r : Remote) (inv : Int)
    (qty : Option PyNum) : ∀ c ∈ (inventoryPhase cfg st r inv qty).1, stageOf c = 4 := by
  unfold inventoryPhase
  dsimp only
  repeat' split
  all_goals
    first
      | (simp [stageOf]; done)
      | exact locationPhase_stage cfg st r
      | (intro c hc
         rcases List.mem_append.mp hc with h | h
         · exact locationPhase_stage cfg st r c h
         · simp_all [stageOf])

/-- The directory getter issues only the catalogs query. -/
theorem getMarketPriceLists_calls (r : Remote) (cache : Option PLDir) :
    ∀ c ∈ (getMarketPriceLists r cache).1, c = Call.gqlCatalogs := by
  unfold getMarketPriceLists
  dsimp only
  repeat' split
  all_goals simp

/-- Every call of the per-market loop belongs to stage 5. -/
theorem priceLoop_stage (r : Remote) (dir : PLDir) (vg : String)
    (prices : MarketKey → Option PyNum) (cmpU : Option PyNum) :
    ∀ ks, ∀ c ∈ (priceLoop r dir vg prices cmpU ks).1, stageOf c = 5 := by
  intro ks
  induction ks with
  | nil => simp [priceLoop]
  | cons k rest ih =>
    unfold priceLoop
    dsimp only
    repeat' split
    all_goals
      first
        | exact ih
        | (simp [stageOf]; done)
        | (simp only [stageOf]
           intro c hc
           rcases List.mem_cons.mp hc with rfl | h
           · rfl
           · simp_all)
        | (simp [stageOf]
           simp_all [stageOf])

/-- Every call of the price-sync phase belongs to stage 5. -/
theorem priceSyncPhase_stage (r : Remote) (st : St) (vg : String)
    (prices : MarketKey → Option PyNum) (cmpU : Option PyNum) :
    ∀ c ∈ (priceSyncPhase r st vg prices cmpU).1, stageOf c = 5 := by
  unfold priceSyncPhase
  dsimp only
  repeat' split
  all_goals
    first
      | (intro c hc
         rw [getMarketPriceLists_calls r st.cachePL c hc]
         rfl)
      | (intro c hc
         rcases List.mem_append.mp hc with h | h
         · rw [getMarketPriceLists_calls r st.cachePL c h]
           rfl
         · exact priceLoop_stage r _ vg prices cmpU marketOrder c h)

/-- A block whose calls all sit in one stage is internally ordered. -/
theorem pairwise_stage_single {t : List Call} {k : Nat} (h : ∀ c ∈ t, stageOf c = k) :
    List.Pairwise (fun a b => stageOf a ≤ stageOf b) t := by
  induction t with
  | nil => constructor
  | cons c rest ih =>
    constructor
    · intro b hb
      rw [h c (by simp), h b (by simp [hb])]
    · exact ih fun d hd => h d (by simp [hd])

/-- Prepending a single-stage block to an ordered tail of calls of later
stages keeps the trace ordered and propagates the stage lower bound. -/
theorem stage_chain {t u : List Call} {j : Nat} (hj : ∀ c ∈ t, stageOf c = j)
    (hu : List.Pairwise (fun a b => stageOf a ≤ stageOf b) u)
    (hlb : ∀ c ∈ u, j ≤ stageOf c) :
    List.Pairwise (fun a b => stageOf a ≤ stageOf b) (t ++ u) ∧
      ∀ c ∈ t ++ u, j ≤ stageOf c := by
  constructor
  · refine List.pairwise_append.mpr ⟨pairwise_stage_single hj, hu, ?_⟩
    intro a ha b hb
    rw [hj a ha]
    exact hlb b hb
  · intro c hc
    rcases List.mem_append.mp hc with h | h
    · rw [hj c h]
    · exact hlb c h

/-- The calls of the `Updating` stage are emitted in non-decreasing stage
order: fields, default price, metafield, inventory, price sync. -/
theorem runUpdates_pairwise (cfg : Config) (st : St) (r : Remote) (v : ResolvedVariant)
    (req : Req) :
    List.Pairwise (fun a b => stageOf a ≤ stageOf b) (runUpdates cfg st r v req).1 := by
  have h1 := fieldsPhase_stage r v.variantGid v.productGid req.title req.barcode
  have h2 := defaultPhase_stage r v.variantNum (_to_number (req.priceOf .uae))
    (_to_number req.uaeCompare)
  have h3 := metafieldPhase_stage r v.variantGid req.size
  have h4 := inventoryPhase_stage cfg st r v.inventoryItemId (_to_number req.qty)
  have h5 := priceSyncPhase_stage r
    ((inventoryPhase cfg st r v.inventoryItemId (_to_number req.qty)).2.1) v.variantGid
    (fun k => _to_number (req.priceOf k)) (_to_number req.uaeCompare)
  have c45 := stage_chain h4 (pairwise_stage_single h5)
    (fun c hc => by rw [h5 c hc]; decide)
  have c345 := stage_chain h3 c45.1 (fun c hc => le_trans (by decide) (c45.2 c hc))
  have c2345 := stage_chain h2 c345.1 (fun c hc => le_trans (by decide) (c345.2 c hc))
  have cAll := stage_chain h1 c2345.1 (fun c hc => le_trans (by decide) (c2345.2 c hc))
  have d34 := stage_chain h3 (pairwise_stage_single h4)
    (fun c hc => by rw [h4 c hc]; decide)
  have d234 := stage_chain h2 d34.1 (fun c hc => le_trans (by decide) (d34.2 c hc))
  have d1234 := stage_chain h1 d234.1 (fun c hc => le_trans (by decide) (d234.2 c hc))
  have e23 := stage_chain h2 (pairwise_stage_single h3)
    (fun c hc => by rw [h3 c hc]; decide)
  have e123 := stage_chain h1 e23.1 (fun c hc => le_trans (by decide) (e23.2 c hc))
  have f12 := stage_chain h1 (pairwise_stage_single h2)
    (fun c hc => by rw [h2 c hc]; decide)
  unfold runUpdates
  dsimp only
  repeat' split
  all_goals
    first
      | exact pairwise_stage_single h1
      | exact f12.1
      | exact e123.1
      | exact d1234.1
      | exact cAll.1

/-- C7: within the `Updating` stage of any run the sub-operations execute in
the fixed order variant-field/title update, default-price update,
custom-attribute update, inventory update, per-market price sync — the call
trace of every request is sorted by stage. -/
theorem claim_C7_theorem (cfg : Config) (st : St) (r : Remote) (req : Req) :
    List.Pairwise (fun a b => stageOf a ≤ stageOf b) (runWebhook cfg st r req).trace := by
  unfold runWebhook
  dsimp only
  repeat' split
  all_goals
    first
      | constructor
      | exact pairwise_stage_single (resolvePhase_stage r _)
      | exact (stage_chain (resolvePhase_stage r _) (runUpdates_pairwise cfg st r _ req)
          (fun c _ => Nat.zero_le _)).1

/-- In the per-market loop, an upsert's compare-at field is the single UAE
compare input for the UAE key and `none` for every other market. -/
theorem priceLoop_cmp (r : Remote) (dir : PLDir) (vg : String)
    (prices : MarketKey → Option PyNum) (cmpU : Option PyNum) :
    ∀ ks mk pid v a cur cmp,
      Call.gqlPriceUpsert mk pid v a cur cmp ∈ (priceLoop r dir vg prices cmpU ks).1 →
      cmp = if mk = MarketKey.uae then cmpU else none := by
  intro ks
  induction ks with
  | nil => simp [priceLoop]
  | cons k rest ih =>
    intro mk pid v a cur cmp hc
    unfold priceLoop at hc
    dsimp only at hc
    repeat' split at hc
    all_goals
      first
        | exact ih mk pid v a cur cmp hc
        | (simp_all; done)
        | (simp_all
           rcases hc with ⟨rfl, -, -, -, -, rfl⟩ | h
           · simp_all
           · exact ih mk pid v a cur cmp h)

/-- In the price-sync phase, the same compare-at shape holds (the directory
call is not an upsert). -/
theorem priceSyncPhase_upsert_cmp (r : Remote) (st : St) (vg : String)
    (prices : MarketKey → Option PyNum) (cmpU : Option PyNum) :
    ∀ mk pid v a cur cmp,
      Call.gqlPriceUpsert mk pid v a cur cmp ∈ (priceSyncPhase r st vg prices cmpU).1 →
      cmp = if mk = MarketKey.uae then cmpU else none := by
  intro mk pid v a cur cmp hc
  unfold priceSyncPhase at hc
  dsimp only at hc
  repeat' split at hc
  all_goals
    first
      | (have hcat := getMarketPriceLists_calls r st.cachePL _ hc; simp_all)
      | (rcases List.mem_append.mp hc with h | h
         · have := getMarketPriceLists_calls r st.cachePL _ h; simp_all
         · exact priceLoop_cmp r _ vg prices cmpU marketOrder mk pid v a cur cmp h)

/-- In the whole `Updating` stage, every upsert call carries the UAE compare
input exactly for the UAE key. -/
theorem runUpdates_upsert_cmp (cfg : Config) (st : St) (r : Remote) (v : ResolvedVariant)
    (req : Req) :
    ∀ mk pid vg a cur cmp,
      Call.gqlPriceUpsert mk pid vg a cur cmp ∈ (runUpdates cfg st r v req).1 →
      cmp = if mk = MarketKey.uae then _to_number req.uaeCompare else none := by
  intro mk pid vg a cur cmp hc
  unfold runUpdates at hc
  dsimp only at hc
  repeat' split at hc
  all_goals simp only [List.mem_append] at hc
  all_goals
    first
      | (have h1 := fieldsPhase_stage r v.variantGid v.productGid req.title req.barcode _ hc
         simp [stageOf] at h1)
      | (rcases hc with hc | hc
         · have h1 := fieldsPhase_stage r v.variantGid v.productGid req.title req.barcode _ hc
           simp [stageOf] at h1
         · first
            | (have h2 := defaultPhase_stage r v.variantNum _ _ _ hc
               simp [stageOf] at h2)
            | (rcases hc with hc | hc
               · have h2 := defaultPhase_stage r v.variantNum _ _ _ hc
                 simp [stageOf] at h2
               · first
                  | (have h3 := metafieldPhase_stage r v.variantGid req.size _ hc
                     simp [stageOf] at h3)
                  | (rcases hc with hc | hc
                     · have h3 := metafieldPhase_stage r v.variantGid req.size _ hc
                       simp [stageOf] at h3
                     · first
                        | (have h4 := inventoryPhase_stage cfg st r v.inventoryItemId _ _ hc
                           simp [stageOf] at h4)
                        | (rcases hc with hc | hc
                           · have h4 := inventoryPhase_stage cfg st r v.inventoryItemId _ _ hc
                             simp [stageOf] at h4
                           · exact priceSyncPhase_upsert_cmp r _ v.variantGid _ _
                               mk pid vg a cur cmp hc))))

/-- C9 (counterexample): with the compare-at input present and Asia the only
targeted market, Asia's fixed-price upsert carries no compare-at — the single
`UAE Comparison Price` field never accompanies a non-UAE market's price. -/
theorem claim_C9_counterexample :
    _to_number reqC9a.uaeCompare = some (.int 80) ∧
    (runWebhook cfg0 st0 rOk reqC9a).trace =
      [.gqlVariantSearch "SKU-1", .restVariantGet "11", .gqlCatalogs,
       .gqlPriceUpsert .asia "gid://shopify/PriceList/2" "gid://shopify/ProductVariant/11"
         (.int 50) "USD" none] := by decide

/-- C9 (amended): the compare-at price is a single request-level input, not a
per-market one: every per-market fixed-price upsert issued by any run carries
the normalized `UAE Comparison Price` when the market key is UAE, and no
compare-at for any other market. -/
theorem claim_C9_theorem (cfg : Config) (st : St) (r : Remote) (req : Req)
    (mk : MarketKey) (pid vg : String) (a : PyNum) (cur : String) (cmp : Option PyNum)
    (hmem : Call.gqlPriceUpsert mk pid vg a cur cmp ∈ (runWebhook cfg st r req).trace) :
    cmp = if mk = MarketKey.uae then _to_number req.uaeCompare else none := by
  unfold runWebhook at hmem
  dsimp only at hmem
  repeat' split at hmem
  all_goals try dsimp only at hmem
  all_goals
    first
      | (simp at hmem; done)
      | (have h0 := resolvePhase_stage r _ _ hmem
         simp [stageOf] at h0)
      | (rcases List.mem_append.mp hmem with h | h
         · have h0 := resolvePhase_stage r _ _ h
           simp [stageOf] at h0
         · exact runUpdates_upsert_cmp cfg st r _ req mk pid vg a cur cmp h)

/-- Witness for C9: the UAE upsert of a concrete run carries the compare-at
input. -/
theorem claim_C9_witness :
    (Call.gqlPriceUpsert .uae "gid://shopify/PriceList/1" "gid://shopify/ProductVariant/11"
        (.int 100) "AED" (some (.int 80)) ∈ (runWebhook cfg0 st0 rOk reqC9b).trace) ∧
    (some (PyNum.int 80) : Option PyNum) =
      (if MarketKey.uae = MarketKey.uae then _to_number reqC9b.uaeCompare else none) :=
  ⟨by decide,
   claim_C9_theorem cfg0 st0 rOk reqC9b .uae "gid://shopify/PriceList/1"
     "gid://shopify/ProductVariant/11" (.int 100) "AED" (some (.int 80)) (by decide)⟩

/-- Resolution result on a successful search and follow-up fetch. -/
theorem resolvePhase_ok (r : Remote) (sku : String) (node : VariantNode) (inv : Int)
    (hs : r.variantSearch = .ok (some node)) (hf : r.variantFetch = .ok inv) :
    resolvePhase r sku =
      ([.gqlVariantSearch sku, .restVariantGet (gidLast node.variantGid)],
       .ok (some ⟨node.variantGid, node.productGid, gidLast node.variantGid, inv⟩)) := by
  simp [resolvePhase, hs, hf]

/-- The field/title phase does not raise when both PUT calls succeed. -/
theorem fieldsPhase_ok (r : Remote) (vg pg : String) (t b : Option String)
    (hdp : r.variantDetailsPut = .ok ()) (htp : r.productTitlePut = .ok ()) :
    (fieldsPhase r vg pg t b).2 = .ok () := by
  unfold fieldsPhase
  repeat' split
  all_goals simp_all

/-- The trace of the default-price phase with a present UAE price, whatever
the PUT's outcome. -/
theorem defaultPhase_trace (r : Remote) (vnum : String) (p : PyNum) (cmp : Option PyNum) :
    (defaultPhase r vnum (some p) cmp).1 = [Call.restDefaultPricePut vnum p cmp] := by
  unfold defaultPhase
  dsimp only
  split <;> rfl

/-- The default-price phase does not raise when the PUT succeeds. -/
theorem defaultPhase_ok (r : Remote) (vnum : String) (p cmp : Option PyNum)
    (hpp : r.defaultPricePut = .ok ()) : (defaultPhase r vnum p cmp).2 = .ok () := by
  unfold defaultPhase
  repeat' split
  all_goals simp_all

/-- The metafield phase does not raise on a transport-successful mutation,
whatever its embedded `userErrors`. -/
theorem metafieldPhase_ok (r : Remote) (vg : String) (size : Option String)
    (errs : List String) (hms : r.metafieldSet = .ok errs) :
    (metafieldPhase r vg size).2 = .ok () := by
  unfold metafieldPhase
  repeat' split
  all_goals simp_all

/-- The inventory phase with a configured preferred location and a
transport-successful write. -/
theorem inventoryPhase_preferred (cfg : Config) (st : St) (r : Remote) (inv : Int)
    (q : PyNum) (L : Int) (hL : cfg.preferredLocationId = some L)
    (hinv : r.inventorySet = .ok ()) :
    inventoryPhase cfg st r inv (some q) =
      ([Call.restInventorySet inv L (pyIntOfNum q)], st, .ok (some (pyIntOfNum q))) := by
  unfold inventoryPhase locationPhase
  simp [hL, hinv]

/-- The inventory phase's trace with a configured preferred location,
whatever the write's outcome. -/
theorem inventoryPhase_trace_preferred (cfg : Config) (st : St) (r : Remote) (inv : Int)
    (q : PyNum) (L : Int) (hL : cfg.preferredLocationId = some L) :
    (inventoryPhase cfg st r inv (some q)).1 =
      [Call.restInventorySet inv L (pyIntOfNum q)] := by
  unfold inventoryPhase locationPhase
  simp [hL]
  split <;> rfl

/-- The directory getter does not raise when the catalogs query is
transport-successful (or the cache is populated). -/
theorem getMarketPriceLists_ok (r : Remote) (cache : Option PLDir)
    (h : r.catalogsQuery ≠ .err) :
    ∃ d, (getMarketPriceLists r cache).2.2 = Except.ok d := by
  unfold getMarketPriceLists
  rcases cache with _ | m
  · cases hq : r.catalogsQuery with
    | err => exact absurd hq h
    | ok resp =>
      cases resp with
      | malformed => exact ⟨[], by simp⟩
      | nodes ns => exact ⟨buildPriceLists ns, by simp⟩
  · exact ⟨m, rfl⟩

/-- The per-market loop does not raise when every upsert is
transport-successful. -/
theorem priceLoop_ok (r : Remote) (dir : PLDir) (vg : String)
    (prices : MarketKey → Option PyNum) (cmpU : Option PyNum)
    (hups : ∀ k, r.priceUpsert k ≠ .err) :
    ∀ ks, ∃ l, (priceLoop r dir vg prices cmpU ks).2 = Except.ok l := by
  intro ks
  induction ks with
  | nil => exact ⟨[], rfl⟩
  | cons k rest ih =>
    obtain ⟨l, hl⟩ := ih
    rcases hpl : priceLoop r dir vg prices cmpU rest with ⟨t', res⟩
    rw [hpl] at hl
    dsimp only at hl
    subst hl
    unfold priceLoop
    dsimp only
    rcases hp : prices k with _ | amt
    · simp only [hp]
      exact ⟨l, by rw [hpl]⟩
    · simp only [hp]
      rcases hd : dlookup dir (MARKET_NAMES k) with _ | pl
      · simp only [hd]
        exact ⟨l, by rw [hpl]⟩
      · simp only [hd]
        cases hu : r.priceUpsert k with
        | err => exact absurd hu (hups k)
        | ok errs =>
          simp only [hu, hpl]
          exact ⟨(k, errs) :: l, rfl⟩

/-- The price-sync phase does not raise when the catalogs query and every
upsert are transport-successful. -/
theorem priceSyncPhase_ok (r : Remote) (st : St) (vg : String)
    (prices : MarketKey → Option PyNum) (cmpU : Option PyNum)
    (hcat : r.catalogsQuery ≠ .err) (hups : ∀ k, r.priceUpsert k ≠ .err) :
    ∃ pu, (priceSyncPhase r st vg prices cmpU).2.2 = Except.ok pu := by
  obtain ⟨d, hd⟩ := getMarketPriceLists_ok r st.cachePL hcat
  obtain ⟨l, hl⟩ := priceLoop_ok r d vg prices cmpU hups marketOrder
  unfold priceSyncPhase
  dsimp only
  rw [hd]
  dsimp only
  rcases hpl : priceLoop r d vg prices cmpU marketOrder with ⟨t', res⟩
  rw [hpl] at hl
  dsimp only at hl
  subst hl
  exact ⟨l, rfl⟩

/-- C1 (counterexample): with the stored default and UAE price-list prices
both equal to the target `100`, a run still issues two price writes (the
default-price PUT and the UAE upsert), not zero — the code never reads the
stored price and records no `Skipped(Unchanged)`. -/
theorem claim_C1_counterexample :
    rOk.storedDefaultPrice = .int 100 ∧ rOk.storedUaeListPrice = .int 100 ∧
    _to_number reqC1.uaePrice = some (.int 100) ∧
    ((runWebhook cfg0 st0 rOk reqC1).trace.countP isPriceWrite) = 2 := by decide

/-- C1 (amended): price writes are unconditional: whenever resolution and the
field phase succeed and a UAE target price is present, the default-price PUT
is issued regardless of any stored price, and the whole run is unaffected by
the remotely stored prices (no read-before-write exists). -/
theorem claim_C1_theorem (cfg : Config) (st : St) (r : Remote) (req : Req) (sku : String)
    (node : VariantNode) (inv : Int) (p : PyNum)
    (hsec : req.secret = some cfg.webhookSecret) (hsku : req.sku = some sku) (hne : sku ≠ "")
    (hs : r.variantSearch = .ok (some node)) (hgid : node.variantGid ≠ "")
    (hf : r.variantFetch = .ok inv)
    (hdp : r.variantDetailsPut = .ok ()) (htp : r.productTitlePut = .ok ())
    (huae : _to_number req.uaePrice = some p) :
    (Call.restDefaultPricePut (gidLast node.variantGid) p (_to_number req.uaeCompare) ∈
      (runWebhook cfg st r req).trace) ∧
    ∀ s1 s2 : PyNum,
      runWebhook cfg st { r with storedDefaultPrice := s1, storedUaeListPrice := s2 } req =
        runWebhook cfg st r req := by
  constructor
  · have e0 := resolvePhase_ok r sku node inv hs hf
    have e1 := fieldsPhase_ok r node.variantGid node.productGid req.title req.barcode hdp htp
    unfold runWebhook
    rw [if_neg (by simp [hsec]), hsku]
    dsimp only
    rw [if_neg hne, e0]
    dsimp only
    rw [if_neg hgid]
    unfold runUpdates
    dsimp only [Req.priceOf]
    rw [huae]
    try dsimp only
    rw [e1]
    try dsimp only
    repeat' split
    all_goals simp [List.mem_append, defaultPhase_trace]
  · intro s1 s2
    cases r
    rfl

/-- Witness for C1 at a concrete run whose stored prices equal the target. -/
theorem claim_C1_witness :
    (Call.restDefaultPricePut "11" (.int 100) none ∈
      (runWebhook cfg0 st0 rOk reqC1).trace) ∧
    ∀ s1 s2 : PyNum,
      runWebhook cfg0 st0 { rOk with storedDefaultPrice := s1, storedUaeListPrice := s2 }
          reqC1 =
        runWebhook cfg0 st0 rOk reqC1 :=
  claim_C1_theorem cfg0 st0 rOk reqC1 "SKU-1" vNode 77 (.int 100) rfl rfl (by decide) rfl
    (by decide) rfl rfl rfl rfl

/-- C2 (counterexample): a transport-level failure of the custom-attribute
write aborts the whole run with `500` and prevents the sibling inventory and
price-list sub-operations from running at all. -/
theorem claim_C2_counterexample :
    (runWebhook cfg0 st0 rMetaErr reqC2).resp = .internalError ∧
    statusCode (runWebhook cfg0 st0 rMetaErr reqC2).resp = 500 ∧
    (runWebhook cfg0 st0 rMetaErr reqC2).trace =
      [.gqlVariantSearch "SKU-1", .restVariantGet "11",
       .gqlMetafieldSet "gid://shopify/ProductVariant/11" "custom" "size"
         "single_line_text_field" "XL"] ∧
    Call.restInventorySet 77 5 10 ∉ (runWebhook cfg0 st0 rMetaErr reqC2).trace := by decide

/-- C2 (amended): only embedded (application-level) errors leave siblings
unaffected: when every sub-operation is transport-successful — the
custom-attribute mutation possibly carrying embedded `userErrors` — the run
completes, answers `200` with the aggregate body, and the inventory write is
issued; a transport-level failure instead aborts the run with `500`
(counterexample). -/
theorem claim_C2_theorem (cfg : Config) (st : St) (r : Remote) (req : Req) (sku : String)
    (node : VariantNode) (inv : Int) (q : PyNum) (L : Int) (errs : List String)
    (hsec : req.secret = some cfg.webhookSecret) (hsku : req.sku = some sku) (hne : sku ≠ "")
    (hs : r.variantSearch = .ok (some node)) (hgid : node.variantGid ≠ "")
    (hf : r.variantFetch = .ok inv)
    (hdp : r.variantDetailsPut = .ok ()) (htp : r.productTitlePut = .ok ())
    (hpp : r.defaultPricePut = .ok ()) (hms : r.metafieldSet = .ok errs)
    (hL : cfg.preferredLocationId = some L) (hq : _to_number req.qty = some q)
    (hinv : r.inventorySet = .ok ()) (hcat : r.catalogsQuery ≠ .err)
    (hups : ∀ k, r.priceUpsert k ≠ .err) :
    ∃ pu, (runWebhook cfg st r req).resp =
        .success node.variantGid node.productGid (some (pyIntOfNum q)) pu ∧
      statusCode (runWebhook cfg st r req).resp = 200 ∧
      Call.restInventorySet inv L (pyIntOfNum q) ∈ (runWebhook cfg st r req).trace := by
  have e0 := resolvePhase_ok r sku node inv hs hf
  have e1 := fieldsPhase_ok r node.variantGid node.productGid req.title req.barcode hdp htp
  have e2 := defaultPhase_ok r (gidLast node.variantGid)
    (_to_number (req.priceOf MarketKey.uae)) (_to_number req.uaeCompare) hpp
  have e3 := metafieldPhase_ok r node.variantGid req.size errs hms
  have e4 := inventoryPhase_preferred cfg st r inv q L hL hinv
  obtain ⟨pu, hpu⟩ := priceSyncPhase_ok r st node.variantGid
    (fun k => _to_number (req.priceOf k)) (_to_number req.uaeCompare) hcat hups
  rcases hps : priceSyncPhase r st node.variantGid
      (fun k => _to_number (req.priceOf k)) (_to_number req.uaeCompare) with ⟨t5, st5, res5⟩
  rw [hps] at hpu
  dsimp only at hpu
  subst hpu
  refine ⟨pu, ?_⟩
  unfold runWebhook
  rw [if_neg (by simp [hsec]), hsku]
  dsimp only
  rw [if_neg hne, e0]
  dsimp only
  rw [if_neg hgid]
  unfold runUpdates
  try dsimp only
  rw [hq]
  try dsimp only
  rw [e1]
  try dsimp only
  rw [e2]
  try dsimp only
  rw [e3]
  try dsimp only
  rw [e4]
  try dsimp only
  rw [hps]
  dsimp only
  refine ⟨rfl, rfl, ?_⟩
  simp [List.mem_append]

/-- Witness for C2 at a concrete run whose metafield mutation returns an
embedded user error while everything else succeeds. -/
theorem claim_C2_witness :
    ∃ pu, (runWebhook cfg0 st0 rEmb reqC2).resp =
        .success "gid://shopify/ProductVariant/11" "gid://shopify/Product/22" (some 10) pu ∧
      statusCode (runWebhook cfg0 st0 rEmb reqC2).resp = 200 ∧
      Call.restInventorySet 77 5 10 ∈ (runWebhook cfg0 st0 rEmb reqC2).trace :=
  claim_C2_theorem cfg0 st0 rEmb reqC2 "SKU-1" vNode 77 (.int 10) 5 ["boom"]
    rfl rfl (by decide) rfl (by decide) rfl rfl rfl rfl rfl rfl rfl rfl (by decide)
    (fun k => by cases k <;> decide)

/-- C10: the inventory write sends `int(q)`: with a numeric quantity present
the issued call carries the toward-zero truncation of the quantity, and the
truncation accepts fractional values (`12.75 → 12`, `-12.75 → -12`) and
forwards negative integers unchanged. -/
theorem claim_C10_theorem (cfg : Config) (st : St) (r : Remote) (req : Req) (sku : String)
    (node : VariantNode) (inv : Int) (q : PyNum) (L : Int) (errs : List String)
    (hsec : req.secret = some cfg.webhookSecret) (hsku : req.sku = some sku) (hne : sku ≠ "")
    (hs : r.variantSearch = .ok (some node)) (hgid : node.variantGid ≠ "")
    (hf : r.variantFetch = .ok inv)
    (hdp : r.variantDetailsPut = .ok ()) (htp : r.productTitlePut = .ok ())
    (hpp : r.defaultPricePut = .ok ()) (hms : r.metafieldSet = .ok errs)
    (hL : cfg.preferredLocationId = some L) (hq : _to_number req.qty = some q) :
    (Call.restInventorySet inv L (pyIntOfNum q) ∈ (runWebhook cfg st r req).trace) ∧
    pyIntOfNum (.float (51/4)) = 12 ∧ pyIntOfNum (.float (-(51/4))) = -12 ∧
    pyIntOfNum (.int (-5)) = -5 := by
  refine ⟨?_, ?_, ?_, rfl⟩
  · have e0 := resolvePhase_ok r sku node inv hs hf
    have e1 := fieldsPhase_ok r node.variantGid node.productGid req.title req.barcode hdp htp
    have e2 := defaultPhase_ok r (gidLast node.variantGid) (_to_number req.uaePrice)
      (_to_number req.uaeCompare) hpp
    have e3 := metafieldPhase_ok r node.variantGid req.size errs hms
    unfold runWebhook
    rw [if_neg (by simp [hsec]), hsku]
    dsimp only
    rw [if_neg hne, e0]
    dsimp only
    rw [if_neg hgid]
    unfold runUpdates
    dsimp only [Req.priceOf]
    rw [hq]
    try dsimp only
    rw [e1]
    try dsimp only
    rw [e2]
    try dsimp only
    rw [e3]
    try dsimp only
    repeat' split
    all_goals simp [List.mem_append, inventoryPhase_trace_preferred cfg st r inv q L hL]
  · rw [pyIntOfNum, pyTrunc, if_pos (by norm_num), Int.floor_eq_iff]
    constructor <;> norm_num
  · rw [pyIntOfNum, pyTrunc, if_neg (by norm_num), Int.ceil_eq_iff]
    constructor <;> norm_num

/-- Witness for C10 at a concrete run with a negative integer quantity. -/
theorem claim_C10_witness :
    (Call.restInventorySet 77 5 (-5) ∈ (runWebhook cfg0 st0 rOk reqC10).trace) ∧
    pyIntOfNum (.float (51/4)) = 12 ∧ pyIntOfNum (.float (-(51/4))) = -12 ∧
    pyIntOfNum (.int (-5)) = -5 :=
  claim_C10_theorem cfg0 st0 rOk reqC10 "SKU-1" vNode 77 (.int (-5)) 5 []
    rfl rfl (by decide) rfl (by decide) rfl rfl rfl rfl rfl rfl rfl
